import Mathlib

/-!
Verification of the trading bot in `src/run.py` (class `TradingBot`).

The Python code is shallowly embedded: prices, indicator values, balances
and volumes are modelled as rationals (`ℚ`), the MT5 order-type constants
`ORDER_TYPE_BUY` / `ORDER_TYPE_SELL` as an inductive type, and fallible
Python code (a raised exception) as `Except Unit`.  External collaborators
(account info, symbol info, quotes) are passed as explicit arguments.
-/

namespace Bot

/-- The two MT5 order types the bot uses (`mt5.ORDER_TYPE_BUY` /
`mt5.ORDER_TYPE_SELL`). -/
inductive OrderType where
  | buy
  | sell
deriving DecidableEq, Repr

/-- The three trend labels produced in `check_market_conditions`
(the Python strings `'uptrend'`, `'downtrend'`, `'sideways'`). -/
inductive Trend where
  | uptrend
  | downtrend
  | sideways
deriving DecidableEq, Repr

/-- The trend classification performed inline in
`TradingBot.check_market_conditions` (src/run.py lines 105-109):
`'uptrend' if sma20 > sma50 > sma200 else 'downtrend' if
sma20 < sma50 < sma200 else 'sideways'`.  Python's chained comparison
`a > b > c` is `a > b and b > c`. -/
def classifyTrend (sma20 sma50 sma200 : ℚ) : Trend :=
  if sma20 > sma50 ∧ sma50 > sma200 then Trend.uptrend
  else if sma20 < sma50 ∧ sma50 < sma200 then Trend.downtrend
  else Trend.sideways

/-- One entry of the per-timeframe condition dict built in
`check_market_conditions`: trend label, latest RSI, latest ATR
(stored under the key `'volatility'`). -/
structure Cond where
  trend : Trend
  rsi : ℚ
  volatility : ℚ
deriving DecidableEq, Repr

/-- The per-symbol condition dict `conditions[symbol]`.  The bot tracks the
three timeframes `'fast'`, `'medium'`, `'slow'` (src/run.py lines 24-28);
a timeframe whose data fetch returned `None` is absent from the dict
(the `continue` in line 101-102), modelled here as `none`. -/
structure SymbolConds where
  fast : Option Cond
  medium : Option Cond
  slow : Option Cond
deriving DecidableEq, Repr

/-- `condition.values()` for a `SymbolConds` dict, in insertion order
fast, medium, slow. -/
def SymbolConds.values (c : SymbolConds) : List Cond :=
  c.fast.toList ++ c.medium.toList ++ c.slow.toList

/-- Per-symbol body of `TradingBot.get_entry_signals` (src/run.py lines
118-134).  `trend_alignment` is Python's
`all(cond['trend'] == 'uptrend' for cond in condition.values()) or
all(cond['trend'] == 'downtrend' for cond in condition.values())`
(vacuously true on an empty dict).  If it holds, the code reads
`condition['fast']`, which raises `KeyError` when the fast timeframe is
absent — modelled as `Except.error ()`.  Otherwise it emits at most one
signal for the symbol (the dict `signals` holds at most one value per
key), modelled as `Option OrderType`. -/
def getEntrySignal (c : SymbolConds) : Except Unit (Option OrderType) :=
  let aligned :=
    (c.values.all fun cond => decide (cond.trend = Trend.uptrend)) ||
    (c.values.all fun cond => decide (cond.trend = Trend.downtrend))
  if aligned then
    match c.fast with
    | none => Except.error ()
    | some fast =>
      if fast.trend = Trend.uptrend then
        if 30 < fast.rsi ∧ fast.rsi < 70 then Except.ok (some OrderType.buy)
        else Except.ok none
      else
        if 30 < fast.rsi ∧ fast.rsi < 70 then Except.ok (some OrderType.sell)
        else Except.ok none
  else Except.ok none

/-- `TradingBot.calculate_sl_tp` (src/run.py lines 152-164): stop-loss and
take-profit from entry price and ATR with the fixed multipliers 1.5 and
2.5.  The Python `else` branch covers everything that is not
`ORDER_TYPE_BUY`, i.e. sell. -/
def calculate_sl_tp (order_type : OrderType) (entry_price atr : ℚ) : ℚ × ℚ :=
  let sl_multiplier : ℚ := 3 / 2
  let tp_multiplier : ℚ := 5 / 2
  match order_type with
  | OrderType.buy =>
      (entry_price - atr * sl_multiplier, entry_price + atr * tp_multiplier)
  | OrderType.sell =>
      (entry_price + atr * sl_multiplier, entry_price - atr * tp_multiplier)

/-- Python's `round(x, 2)` on an exact value: round half to even at two
decimal places (src/run.py line 149 rounds the position size this way). -/
def round2 (x : ℚ) : ℚ :=
  let s := x * 100
  let f : ℤ := Int.floor s
  let r : ℤ :=
    if s - f < 1 / 2 then f
    else if 1 / 2 < s - f then f + 1
    else if f % 2 = 0 then f else f + 1
  (r : ℚ) / 100

/-- The pip value computed in `calculate_position_size` (src/run.py line
144): `symbol_info.trade_tick_value * (10 ** (symbol_info.digits - 4))`. -/
def pipValue (trade_tick_value : ℚ) (digits : ℤ) : ℚ :=
  trade_tick_value * (10 : ℚ) ^ (digits - 4)

/-- `TradingBot.calculate_position_size` (src/run.py lines 137-150), with
the external reads (`account_info.balance`, `symbol_info.trade_tick_value`,
`digits`, `volume_min`, `volume_max`) passed as arguments.  The
`account_info` falsy fallback (lines 140-141) is not modelled: the claims
concern a connected account.  Python float division raises
`ZeroDivisionError` when the divisor `stop_loss_pips * pip_value` is
exactly zero, modelled as `Except.error ()`; line 150 is
`max(min(position_size, volume_max), volume_min)`. -/
def calculate_position_size (balance risk_percentage stop_loss_pips
    trade_tick_value : ℚ) (digits : ℤ) (volume_min volume_max : ℚ) :
    Except Unit ℚ :=
  let pip_value := pipValue trade_tick_value digits
  let risk_amount := balance * (risk_percentage / 100)
  if stop_loss_pips * pip_value = 0 then Except.error ()
  else
    Except.ok (max (min (round2 (risk_amount / (stop_loss_pips * pip_value)))
      volume_max) volume_min)

/-- An MT5 open position as read by `manage_positions`: direction, entry
price, current stop-loss, current take-profit, ticket. -/
structure Position where
  type : OrderType
  price_open : ℚ
  sl : ℚ
  tp : ℚ
  ticket : ℕ
deriving DecidableEq, Repr

/-- The per-position trailing decision of `TradingBot.manage_positions`
(src/run.py lines 219-228): `profit_pips = (current_price - price_open) /
point`; when `profit_pips > 50`, the candidate stop is
`price_open + profit_pips * 0.5 * point` and a modification is requested
only when the candidate exceeds `position.sl`.  Returns the stop of the
requested modification, or `none`.  The code runs this for every open
position regardless of `position.type`. -/
def trailDecision (position : Position) (current_price point : ℚ) :
    Option ℚ :=
  let profit_pips := (current_price - position.price_open) / point
  if profit_pips > 50 then
    let new_sl := position.price_open + profit_pips * (1 / 2) * point
    if new_sl > position.sl then some new_sl else none
  else none

/-- Spec-side predicate (spec glossary and §4.6): a stop-loss move is "in
the trade's favor" when it tightens the stop — upward for a buy, downward
for a sell.  Written from the spec's words, to be compared with
`trailDecision`. -/
def movesInTradesFavor (t : OrderType) (new_sl old_sl : ℚ) : Prop :=
  match t with
  | OrderType.buy => old_sl < new_sl
  | OrderType.sell => new_sl < old_sl

/-- `df['close'].diff()` without the leading NaN: entry `i` is
`closes[i+1] − closes[i]` (src/run.py line 76). -/
def deltas (closes : List ℚ) : List ℚ :=
  List.zipWith (fun a b => a - b) closes.tail closes

/-- `delta.where(delta > 0, 0)` (src/run.py line 77): positive deltas,
zero elsewhere. -/
def gains (closes : List ℚ) : List ℚ :=
  (deltas closes).map fun d => if 0 < d then d else 0

/-- `(-delta.where(delta < 0, 0))` (src/run.py line 78): magnitudes of the
negative deltas, zero elsewhere. -/
def losses (closes : List ℚ) : List ℚ :=
  (deltas closes).map fun d => if d < 0 then -d else 0

/-- `.rolling(window=14).mean()` at index `i`: the mean of entries
`i−13..i`, undefined (NaN in pandas) before 14 observations. -/
def rollMean14 (xs : List ℚ) (i : ℕ) : Option ℚ :=
  if 13 ≤ i ∧ i < xs.length then
    some (((xs.take (i + 1)).drop (i + 1 - 14)).sum / 14)
  else none

/-- The RSI series `df['rsi'] = 100 - (100 / (1 + rs))` with
`rs = gain / loss` (src/run.py lines 79-80), at delta-index `i` (row
`i + 1` of the dataframe, since `diff()` prepends a NaN).  `gain / loss`
is IEEE float division in pandas: for `loss > 0` it is ordinary division;
for `gain > 0, loss = 0` it is `+inf`, making
`100 − 100/(1 + inf) = 100`; for `0 / 0` it is NaN (modelled `none`). -/
def rsiAt (closes : List ℚ) (i : ℕ) : Option ℚ :=
  match rollMean14 (gains closes) i, rollMean14 (losses closes) i with
  | some g, some l =>
      if 0 < l then some (100 - 100 / (1 + g / l))
      else if 0 < g then some 100
      else none
  | _, _ => none

/-- A sample close-price history for evaluating the RSI model: 15 closes
alternating 1, 2, giving 14 deltas alternating +1, −1. -/
def rsiSampleCloses : List ℚ :=
  [1, 2, 1, 2, 1, 2, 1, 2, 1, 2, 1, 2, 1, 2, 1]

/-- A value stored in a Python object's attribute dictionary; only the
shapes assigned by `TradingBot.__init__` are needed. -/
inductive AttrValue where
  | symbolList : List String → AttrValue
  | num : ℚ → AttrValue
  | natVal : ℕ → AttrValue
  | tfDict : List (String × ℕ) → AttrValue
deriving DecidableEq, Repr

/-- The attribute dictionary created by `TradingBot.__init__` (src/run.py
lines 20-28): it assigns `symbols`, `risk_percentage`, `max_positions` and
`timeframes` (the MT5 constants M5 = 5, M15 = 15, H1 = 16385) — and no
attribute named `symbol`. -/
def TradingBot.initAttrs (symbols : List String) (risk_percentage : ℚ)
    (max_positions : ℕ) : List (String × AttrValue) :=
  [("symbols", AttrValue.symbolList symbols),
   ("risk_percentage", AttrValue.num risk_percentage),
   ("max_positions", AttrValue.natVal max_positions),
   ("timeframes",
     AttrValue.tfDict [("fast", 5), ("medium", 15), ("slow", 16385)])]

/-- The request dict built by `modify_sl_tp` (src/run.py lines 232-238),
up to the constant entries. -/
structure ModifyRequest where
  symbol : AttrValue
  sl : ℚ
  tp : ℚ
  ticket : ℕ
deriving Repr

/-- `TradingBot.modify_sl_tp` (src/run.py lines 230-238) up to the
external `order_send`: building the request dict reads `self.symbol`;
reading an attribute absent from the object's dictionary raises
`AttributeError`, modelled as `Except.error ()`. -/
def modify_sl_tp (self : List (String × AttrValue)) (ticket : ℕ)
    (sl tp : ℚ) : Except Unit ModifyRequest :=
  match self.lookup "symbol" with
  | some v => Except.ok { symbol := v, sl := sl, tp := tp, ticket := ticket }
  | none => Except.error ()

/-- The order request built by `place_trade` (src/run.py lines 190-203),
up to the constant entries. -/
structure TradeRequest where
  symbol : String
  volume : ℚ
  order_type : OrderType
  price : ℚ
  sl : ℚ
  tp : ℚ
deriving DecidableEq, Repr

/-- The request-building part of `TradingBot.place_trade` (src/run.py
lines 166-203), with the external reads (`symbol_info.ask/bid/point`,
account and volume data) passed as arguments.  The entry price is the ask
for a buy and the bid for a sell; stops come from `calculate_sl_tp` with
the fast timeframe's ATR, `sl_pips = abs(price - sl) / point` (a Python
`ZeroDivisionError` when `point = 0`), and the volume from
`calculate_position_size`.  There is no validity check on the ATR
anywhere on this path. -/
def place_trade_request (symbol : String) (order_type : OrderType)
    (ask bid point balance risk_percentage trade_tick_value : ℚ)
    (digits : ℤ) (volume_min volume_max fast_volatility : ℚ) :
    Except Unit TradeRequest :=
  let price := match order_type with
    | OrderType.buy => ask
    | OrderType.sell => bid
  let sltp := calculate_sl_tp order_type price fast_volatility
  if point = 0 then Except.error ()
  else
    let sl_pips := |price - sltp.1| / point
    Except.map
      (fun position_size =>
        ⟨symbol, position_size, order_type, price, sltp.1, sltp.2⟩)
      (calculate_position_size balance risk_percentage sl_pips
        trade_tick_value digits volume_min volume_max)

end Bot

namespace Bot

/-- Claim C8 — Trend classification is a strict nested-order check:
`classifyTrend` returns uptrend iff SMA20 > SMA50 > SMA200, downtrend iff
SMA20 < SMA50 < SMA200, and any equality among the three averages yields
sideways. -/
theorem classifyTrend_strict_nested_order (a b c : ℚ) :
    (classifyTrend a b c = Trend.uptrend ↔ (a > b ∧ b > c)) ∧
    (classifyTrend a b c = Trend.downtrend ↔ (a < b ∧ b < c)) ∧
    ((a = b ∨ b = c ∨ a = c) → classifyTrend a b c = Trend.sideways) := by
  unfold classifyTrend
  split_ifs with h1 h2
  · refine ⟨iff_of_true rfl h1,
      ⟨fun h => (nomatch h), fun h => absurd h.1 (not_lt.mpr h1.1.le)⟩, ?_⟩
    rintro (rfl | rfl | rfl) <;> exfalso <;> linarith [h1.1, h1.2]
  · refine ⟨⟨fun h => (nomatch h), fun h => absurd h h1⟩,
      iff_of_true rfl h2, ?_⟩
    rintro (rfl | rfl | rfl) <;> exfalso <;> linarith [h2.1, h2.2]
  · exact ⟨⟨fun h => (nomatch h), fun h => absurd h h1⟩,
      ⟨fun h => (nomatch h), fun h => absurd h h2⟩, fun _ => rfl⟩

/-- Witness for C8: with all three SMAs equal, the label is sideways. -/
theorem classifyTrend_strict_nested_order_witness :
    classifyTrend 1 1 1 = Trend.sideways :=
  (classifyTrend_strict_nested_order 1 1 1).2.2 (Or.inl rfl)

/-- Claim C1 — Multi-timeframe signal generation, for an instrument with
data on all three tracked timeframes: if every timeframe reports uptrend
the signal is buy exactly when the fast RSI lies strictly between 30 and
70 (and no signal otherwise); if every timeframe reports downtrend the
signal is sell exactly when the fast RSI lies strictly between 30 and 70;
if the labels are not all-uptrend and not all-downtrend there is no
signal.  At most one signal per instrument per cycle holds structurally:
the per-symbol result is a single `Option OrderType` (the Python `signals`
dict holds at most one value per symbol key). -/
theorem getEntrySignal_alignment (f m s : Cond) :
    ((f.trend = Trend.uptrend ∧ m.trend = Trend.uptrend ∧
        s.trend = Trend.uptrend) →
      (getEntrySignal ⟨some f, some m, some s⟩ =
          Except.ok (some OrderType.buy) ↔ (30 < f.rsi ∧ f.rsi < 70)) ∧
      (¬(30 < f.rsi ∧ f.rsi < 70) →
        getEntrySignal ⟨some f, some m, some s⟩ = Except.ok none)) ∧
    ((f.trend = Trend.downtrend ∧ m.trend = Trend.downtrend ∧
        s.trend = Trend.downtrend) →
      (getEntrySignal ⟨some f, some m, some s⟩ =
          Except.ok (some OrderType.sell) ↔ (30 < f.rsi ∧ f.rsi < 70)) ∧
      (¬(30 < f.rsi ∧ f.rsi < 70) →
        getEntrySignal ⟨some f, some m, some s⟩ = Except.ok none)) ∧
    (¬(f.trend = Trend.uptrend ∧ m.trend = Trend.uptrend ∧
        s.trend = Trend.uptrend) →
     ¬(f.trend = Trend.downtrend ∧ m.trend = Trend.downtrend ∧
        s.trend = Trend.downtrend) →
      getEntrySignal ⟨some f, some m, some s⟩ = Except.ok none) := by
  obtain ⟨ft, fr, fv⟩ := f
  obtain ⟨mt, mr, mv⟩ := m
  obtain ⟨st, sr, sv⟩ := s
  refine ⟨?_, ?_, ?_⟩
  · rintro ⟨hf, hm, hs⟩
    simp only at hf hm hs
    subst hf; subst hm; subst hs
    by_cases h : 30 < fr ∧ fr < 70
    · refine ⟨iff_of_true ?_ h, fun hn => absurd h hn⟩
      simp [getEntrySignal, SymbolConds.values, h]
    · refine ⟨iff_of_false ?_ h, fun _ => ?_⟩ <;>
        simp [getEntrySignal, SymbolConds.values, h]
  · rintro ⟨hf, hm, hs⟩
    simp only at hf hm hs
    subst hf; subst hm; subst hs
    by_cases h : 30 < fr ∧ fr < 70
    · refine ⟨iff_of_true ?_ h, fun hn => absurd h hn⟩
      simp [getEntrySignal, SymbolConds.values, h]
    · refine ⟨iff_of_false ?_ h, fun _ => ?_⟩ <;>
        simp [getEntrySignal, SymbolConds.values, h]
  · intro h1 h2
    cases ft <;> cases mt <;> cases st <;>
      simp_all [getEntrySignal, SymbolConds.values]

/-- Witness for C1: three uptrend timeframes with fast RSI 55 yield a buy
signal. -/
theorem getEntrySignal_alignment_witness :
    getEntrySignal ⟨some ⟨Trend.uptrend, 55, 1 / 1000⟩,
      some ⟨Trend.uptrend, 50, 1 / 1000⟩,
      some ⟨Trend.uptrend, 48, 1 / 1000⟩⟩ =
      Except.ok (some OrderType.buy) :=
  ((getEntrySignal_alignment ⟨Trend.uptrend, 55, 1 / 1000⟩
      ⟨Trend.uptrend, 50, 1 / 1000⟩ ⟨Trend.uptrend, 48, 1 / 1000⟩).1
    ⟨rfl, rfl, rfl⟩).1.mpr (by norm_num)

/-- Claim C7 (code_bug evidence) — an instrument whose condition dict is
empty (market data unavailable on every timeframe) is NOT silently
skipped: Python's `all(...)` is vacuously true on the empty dict, so
`trend_alignment` holds and `condition['fast']` raises `KeyError`
(modelled as `Except.error ()`), instead of producing no signal and no
error as the spec requires. -/
theorem getEntrySignal_empty_conditions_raises :
    getEntrySignal ⟨none, none, none⟩ = Except.error () := rfl

/-- Claim C2 — Exit calculation: for every entry price and ATR,
`calculate_sl_tp` for a buy returns `(entry − 1.5·atr, entry + 2.5·atr)`
and for a sell `(entry + 1.5·atr, entry − 2.5·atr)`; in particular
`calculate_sl_tp buy 1.1000 0.0020 = (1.0970, 1.1050)`. -/
theorem calculate_sl_tp_formulas :
    (∀ entry atr : ℚ,
      calculate_sl_tp OrderType.buy entry atr =
        (entry - atr * (3 / 2), entry + atr * (5 / 2)) ∧
      calculate_sl_tp OrderType.sell entry atr =
        (entry + atr * (3 / 2), entry - atr * (5 / 2))) ∧
    calculate_sl_tp OrderType.buy (11 / 10) (1 / 500) =
      (1097 / 1000, 1105 / 1000) := by
  constructor
  · intro entry atr
    exact ⟨rfl, rfl⟩
  · unfold calculate_sl_tp
    norm_num

/-- On a non-zero divisor, `calculate_position_size` rounds and clamps the
risk-based raw volume. -/
lemma calculate_position_size_ok (balance risk_percentage stop_loss_pips
    trade_tick_value : ℚ) (digits : ℤ) (volume_min volume_max : ℚ)
    (h : stop_loss_pips * pipValue trade_tick_value digits ≠ 0) :
    calculate_position_size balance risk_percentage stop_loss_pips
        trade_tick_value digits volume_min volume_max =
      Except.ok (max (min (round2 (balance * (risk_percentage / 100) /
        (stop_loss_pips * pipValue trade_tick_value digits)))
        volume_max) volume_min) := by
  simp [calculate_position_size, h]

/-- Rounding to two decimals preserves non-positivity. -/
lemma round2_nonpos {x : ℚ} (hx : x ≤ 0) : round2 x ≤ 0 := by
  have hs : x * 100 ≤ 0 := by nlinarith
  have hf : ((Int.floor (x * 100) : ℤ) : ℚ) ≤ x * 100 := Int.floor_le _
  simp only [round2]
  split_ifs with h1 h2 h3
  · linarith
  · have hneg : ((Int.floor (x * 100) : ℤ) : ℚ) < 0 := by linarith
    have hz : Int.floor (x * 100) < 0 := by exact_mod_cast hneg
    have hz1 : Int.floor (x * 100) + 1 ≤ 0 := by omega
    have hc : ((Int.floor (x * 100) + 1 : ℤ) : ℚ) ≤ 0 := by exact_mod_cast hz1
    push_cast at hc ⊢
    linarith
  · linarith
  · have heq : ((Int.floor (x * 100) : ℤ) : ℚ) = x * 100 - 1 / 2 := by
      linarith
    have hneg : ((Int.floor (x * 100) : ℤ) : ℚ) < 0 := by linarith
    have hz : Int.floor (x * 100) < 0 := by exact_mod_cast hneg
    have hz1 : Int.floor (x * 100) + 1 ≤ 0 := by omega
    have hc : ((Int.floor (x * 100) + 1 : ℤ) : ℚ) ≤ 0 := by exact_mod_cast hz1
    push_cast at hc ⊢
    linarith

/-- Claim C3 — Position sizing: with positive stop distance and pip value
and `volume_min ≤ volume_max`, the returned volume is
`balance × risk_percentage/100 / (stop_loss_pips × pip_value)` rounded to
two decimals and clamped into `[volume_min, volume_max]`; in particular
balance 10000, risk 1, 30 pips, pip value 10 gives raw volume 1/3 rounded
to 0.33 before clamping. -/
theorem calculate_position_size_spec (balance risk_percentage stop_loss_pips
    trade_tick_value : ℚ) (digits : ℤ) (volume_min volume_max : ℚ) :
    (0 < stop_loss_pips → 0 < pipValue trade_tick_value digits →
      volume_min ≤ volume_max →
      calculate_position_size balance risk_percentage stop_loss_pips
          trade_tick_value digits volume_min volume_max =
        Except.ok (max (min (round2 (balance * (risk_percentage / 100) /
          (stop_loss_pips * pipValue trade_tick_value digits)))
          volume_max) volume_min) ∧
      (∀ v, calculate_position_size balance risk_percentage stop_loss_pips
          trade_tick_value digits volume_min volume_max = Except.ok v →
        volume_min ≤ v ∧ v ≤ volume_max)) ∧
    calculate_position_size 10000 1 30 10 4 volume_min volume_max =
      Except.ok (max (min (33 / 100) volume_max) volume_min) := by
  constructor
  · intro hs hp hmm
    have hne : stop_loss_pips * pipValue trade_tick_value digits ≠ 0 :=
      ne_of_gt (mul_pos hs hp)
    refine ⟨calculate_position_size_ok _ _ _ _ _ _ _ hne, fun v hv => ?_⟩
    rw [calculate_position_size_ok _ _ _ _ _ _ _ hne] at hv
    injection hv with hv
    subst hv
    exact ⟨le_max_right _ _, max_le (min_le_right _ _) hmm⟩
  · have hpip : pipValue 10 4 = 10 := by norm_num [pipValue]
    have hne : (30 : ℚ) * pipValue 10 4 ≠ 0 := by rw [hpip]; norm_num
    rw [calculate_position_size_ok _ _ _ _ _ _ _ hne, hpip]
    have hraw : (10000 : ℚ) * (1 / 100) / (30 * 10) = 1 / 3 := by norm_num
    rw [hraw]
    have hfl : Int.floor ((1 / 3 : ℚ) * 100) = 33 := by
      rw [Int.floor_eq_iff]
      norm_num
    have h13 : round2 (1 / 3 : ℚ) = 33 / 100 := by
      simp only [round2, hfl]
      norm_num
    rw [h13]

/-- Witness for C3: the general clause at concrete inputs, and the
concrete clause with volume limits 0.01 and 100. -/
theorem calculate_position_size_spec_witness :
    calculate_position_size 10 1 5 1 4 (1 / 100) 100 =
      Except.ok (max (min (round2 (10 * ((1 : ℚ) / 100) /
        (5 * pipValue 1 4))) 100) (1 / 100)) ∧
    calculate_position_size 10000 1 30 10 4 (1 / 100) 100 =
      Except.ok (max (min ((33 : ℚ) / 100) 100) (1 / 100)) :=
  ⟨((calculate_position_size_spec 10 1 5 1 4 (1 / 100) 100).1
      (by norm_num) (by norm_num [pipValue]) (by norm_num)).1,
   (calculate_position_size_spec 10000 1 30 10 4 (1 / 100) 100).2⟩

/-- Counterexample to claim C6 as stated: with `stop_distance_pips = 0`
(and pip value 10, minimum volume 0.01) the code raises
`ZeroDivisionError` — it does not return the minimum tradable volume. -/
theorem calculate_position_size_zero_stop_raises :
    calculate_position_size 10000 1 0 10 4 (1 / 100) 100 =
      Except.error () := by
  norm_num [calculate_position_size, pipValue]

/-- Claim C6 (amended): when `stop_loss_pips × pip_value` is strictly
negative (exactly one factor negative), the clamp returns the minimum
volume, given a non-negative risk amount and
`0 ≤ volume_min ≤ volume_max`; when the product is exactly zero the
division raises `ZeroDivisionError` instead of returning a volume. -/
theorem calculate_position_size_bad_inputs (balance risk_percentage
    stop_loss_pips trade_tick_value : ℚ) (digits : ℤ)
    (volume_min volume_max : ℚ) :
    (stop_loss_pips * pipValue trade_tick_value digits = 0 →
      calculate_position_size balance risk_percentage stop_loss_pips
        trade_tick_value digits volume_min volume_max = Except.error ()) ∧
    (stop_loss_pips * pipValue trade_tick_value digits < 0 →
      0 ≤ balance * (risk_percentage / 100) → 0 ≤ volume_min →
      volume_min ≤ volume_max →
      calculate_position_size balance risk_percentage stop_loss_pips
        trade_tick_value digits volume_min volume_max =
          Except.ok volume_min) := by
  constructor
  · intro h0
    simp [calculate_position_size, h0]
  · intro hneg hra hvm hmm
    have hne : stop_loss_pips * pipValue trade_tick_value digits ≠ 0 :=
      ne_of_lt hneg
    have hq : balance * (risk_percentage / 100) /
        (stop_loss_pips * pipValue trade_tick_value digits) ≤ 0 :=
      div_nonpos_iff.mpr (Or.inl ⟨hra, hneg.le⟩)
    have hr : round2 (balance * (risk_percentage / 100) /
        (stop_loss_pips * pipValue trade_tick_value digits)) ≤ 0 :=
      round2_nonpos hq
    rw [calculate_position_size_ok _ _ _ _ _ _ _ hne,
      min_eq_left (hr.trans (hvm.trans hmm)), max_eq_right (hr.trans hvm)]

/-- Witness for C6 (amended): a negative stop distance yields the minimum
volume 0.01, and a zero product raises. -/
theorem calculate_position_size_bad_inputs_witness :
    calculate_position_size 10000 1 (-30) 10 4 (1 / 100) 100 =
      Except.ok (1 / 100) ∧
    calculate_position_size 10000 1 0 10 4 (1 / 100) 100 =
      Except.error () :=
  ⟨(calculate_position_size_bad_inputs 10000 1 (-30) 10 4 (1 / 100) 100).2
      (by norm_num [pipValue]) (by norm_num) (by norm_num) (by norm_num),
   (calculate_position_size_bad_inputs 10000 1 0 10 4 (1 / 100) 100).1
      (by norm_num [pipValue])⟩

/-- Counterexample to claim C4 as stated: for a sell position (entry
1.1000, stop 1.1030, point 0.0001) at bid 1.1080 the position manager
emits a stop modification to 1.1040, which moves the stop against the
sell (upward), loosening it. -/
theorem trailDecision_loosens_sell_stop :
    trailDecision ⟨OrderType.sell, 11 / 10, 1103 / 1000, 1, 7⟩
        (1108 / 1000) (1 / 10000) = some (1104 / 1000) ∧
    ¬ movesInTradesFavor OrderType.sell (1104 / 1000) (1103 / 1000) := by
  constructor
  · norm_num [trailDecision]
  · norm_num [movesInTradesFavor]

/-- Claim C4 (amended) — the trailing rule is safe for buy positions only:
every stop modification emitted for a buy position strictly raises
(tightens) the stop relative to the current one; the code applies the same
long-side formula and comparison to sell positions, where the emitted
stop can move against the trade. -/
theorem trailDecision_tightens_buy (position : Position)
    (current_price point new_sl : ℚ)
    (hbuy : position.type = OrderType.buy)
    (h : trailDecision position current_price point = some new_sl) :
    movesInTradesFavor position.type new_sl position.sl := by
  rw [hbuy]
  simp only [trailDecision] at h
  split_ifs at h with h1 h2
  injection h with h'
  subst h'
  exact h2

/-- Witness for C4 (amended): a buy position with entry 1.1000 and stop
1.0970 at bid 1.1080 gets its stop raised to 1.1040. -/
theorem trailDecision_tightens_buy_witness :
    movesInTradesFavor OrderType.buy (1104 / 1000) (1097 / 1000) :=
  trailDecision_tightens_buy ⟨OrderType.buy, 11 / 10, 1097 / 1000, 1, 7⟩
    (1108 / 1000) (1 / 10000) (1104 / 1000) rfl
    (by norm_num [trailDecision])

/-- The raw volume 1/3 of the running example rounds to 0.33. -/
lemma round2_one_third : round2 (1 / 3 : ℚ) = 33 / 100 := by
  have hfl : Int.floor ((1 / 3 : ℚ) * 100) = 33 := by
    rw [Int.floor_eq_iff]
    norm_num
  simp only [round2, hfl]
  norm_num

/-- When the point is non-zero and the sizing divisor is non-zero, the buy
branch of `place_trade` builds its order request from the computed stop,
target and volume. -/
lemma place_trade_request_buy_builds (symbol : String)
    (ask bid point balance risk_percentage trade_tick_value : ℚ)
    (digits : ℤ) (volume_min volume_max atr : ℚ)
    (hpoint : ¬ point = 0)
    (hprod : (|ask - (calculate_sl_tp OrderType.buy ask atr).1| / point) *
      pipValue trade_tick_value digits ≠ 0) :
    place_trade_request symbol OrderType.buy ask bid point balance
        risk_percentage trade_tick_value digits volume_min volume_max atr =
      Except.ok ⟨symbol,
        max (min (round2 (balance * (risk_percentage / 100) /
          ((|ask - (calculate_sl_tp OrderType.buy ask atr).1| / point) *
            pipValue trade_tick_value digits))) volume_max) volume_min,
        OrderType.buy, ask, (calculate_sl_tp OrderType.buy ask atr).1,
        (calculate_sl_tp OrderType.buy ask atr).2⟩ := by
  have hc := calculate_position_size_ok balance risk_percentage
    (|ask - (calculate_sl_tp OrderType.buy ask atr).1| / point)
    trade_tick_value digits volume_min volume_max hprod
  simp only [place_trade_request]
  rw [if_neg hpoint, hc]
  rfl

/-- Counterexample to claim C5 as stated: `calculate_sl_tp` does not fail
on non-positive ATR — with atr = 0 it returns the degenerate price levels
(entry, entry), and with atr = −0.002 the whole `place_trade` path still
builds the order request (an inverted stop above the buy entry) rather
than abandoning the candidate trade. -/
theorem calculate_sl_tp_no_invalid_volatility_cex :
    calculate_sl_tp OrderType.buy (11 / 10) 0 = (11 / 10, 11 / 10) ∧
    place_trade_request "EURUSDm" OrderType.buy (11 / 10) 1 (1 / 10000)
        10000 1 10 4 (1 / 100) 100 (-(1 / 500)) =
      Except.ok ⟨"EURUSDm", 33 / 100, OrderType.buy, 11 / 10,
        1103 / 1000, 1095 / 1000⟩ := by
  have hsl : calculate_sl_tp OrderType.buy (11 / 10) (-(1 / 500)) =
      (1103 / 1000, 1095 / 1000) := by
    norm_num [calculate_sl_tp]
  have habs : |(11 / 10 : ℚ) - 1103 / 1000| = 3 / 1000 := by
    rw [abs_eq (by norm_num : (0 : ℚ) ≤ 3 / 1000)]
    norm_num
  have hprod : (|(11 / 10 : ℚ) -
      (calculate_sl_tp OrderType.buy (11 / 10) (-(1 / 500))).1| /
      (1 / 10000)) * pipValue 10 4 ≠ 0 := by
    rw [hsl]
    norm_num [habs, pipValue]
  constructor
  · norm_num [calculate_sl_tp]
  · rw [place_trade_request_buy_builds "EURUSDm" (11 / 10) 1 (1 / 10000)
      10000 1 10 4 (1 / 100) 100 (-(1 / 500)) (by norm_num) hprod, hsl]
    have habs2 : |(3 : ℚ) / 1000| = 3 / 1000 :=
      abs_of_pos (by norm_num)
    have harg : (10000 : ℚ) * ((1 : ℚ) / 100) /
        ((|(11 / 10 : ℚ) - ((1103 : ℚ) / 1000, (1095 : ℚ) / 1000).1| /
          (1 / 10000)) * pipValue 10 4) = 1 / 3 := by
      norm_num [habs, habs2, pipValue]
    rw [harg, round2_one_third,
      min_eq_left (by norm_num : (33 : ℚ) / 100 ≤ 100),
      max_eq_left (by norm_num : (1 : ℚ) / 100 ≤ 33 / 100)]

/-- Claim C5 (amended) — there is no volatility check anywhere on the
entry path: `calculate_sl_tp` is total and applies the 1.5/2.5 formulas
for every ATR, so for atr ≤ 0 a buy gets a stop at or above the entry and
a target at or below it; and for atr < 0 (with positive point and tick
value) `place_trade` still builds the order request instead of abandoning
the candidate trade. -/
theorem calculate_sl_tp_unchecked (entry atr : ℚ) (symbol : String)
    (ask bid point balance risk_percentage trade_tick_value : ℚ)
    (digits : ℤ) (volume_min volume_max : ℚ) :
    (atr ≤ 0 →
      calculate_sl_tp OrderType.buy entry atr =
        (entry - atr * (3 / 2), entry + atr * (5 / 2)) ∧
      entry ≤ (calculate_sl_tp OrderType.buy entry atr).1 ∧
      (calculate_sl_tp OrderType.buy entry atr).2 ≤ entry) ∧
    (atr < 0 → 0 < point → 0 < trade_tick_value →
      ∃ req, place_trade_request symbol OrderType.buy ask bid point balance
        risk_percentage trade_tick_value digits volume_min volume_max atr =
          Except.ok req) := by
  constructor
  · intro h
    refine ⟨rfl, ?_, ?_⟩ <;> simp only [calculate_sl_tp] <;> nlinarith
  · intro hatr hpoint htick
    have hpv : 0 < pipValue trade_tick_value digits := by
      exact mul_pos htick (zpow_pos (by norm_num) _)
    have habs : 0 <
        |ask - (calculate_sl_tp OrderType.buy ask atr).1| / point := by
      apply div_pos _ hpoint
      rw [abs_pos]
      show ask - (ask - atr * (3 / 2)) ≠ 0
      intro hz
      nlinarith
    have hprod : (|ask - (calculate_sl_tp OrderType.buy ask atr).1| /
        point) * pipValue trade_tick_value digits ≠ 0 :=
      ne_of_gt (mul_pos habs hpv)
    exact ⟨_, place_trade_request_buy_builds symbol ask bid point balance
      risk_percentage trade_tick_value digits volume_min volume_max atr
      (ne_of_gt hpoint) hprod⟩

/-- Witness for C5 (amended): both clauses at atr = −0.002. -/
theorem calculate_sl_tp_unchecked_witness :
    ((11 / 10 : ℚ) ≤
      (calculate_sl_tp OrderType.buy (11 / 10) (-(1 / 500))).1) ∧
    ∃ req, place_trade_request "EURUSDm" OrderType.buy (11 / 10) 1
        (1 / 10000) 10000 1 10 4 (1 / 100) 100 (-(1 / 500)) =
      Except.ok req :=
  ⟨((calculate_sl_tp_unchecked (11 / 10) (-(1 / 500)) "EURUSDm" (11 / 10) 1
      (1 / 10000) 10000 1 10 4 (1 / 100) 100).1 (by norm_num)).2.1,
   (calculate_sl_tp_unchecked (11 / 10) (-(1 / 500)) "EURUSDm" (11 / 10) 1
      (1 / 10000) 10000 1 10 4 (1 / 100) 100).2 (by norm_num) (by norm_num)
      (by norm_num)⟩

/-- Every entry of the gain series is non-negative. -/
lemma gains_nonneg (closes : List ℚ) : ∀ x ∈ gains closes, 0 ≤ x := by
  intro x hx
  simp only [gains, List.mem_map] at hx
  obtain ⟨d, _, rfl⟩ := hx
  split_ifs with h
  · exact h.le
  · exact le_refl 0

/-- A rolling mean of a series of non-negative entries is non-negative. -/
lemma rollMean14_nonneg {xs : List ℚ} {i : ℕ} {m : ℚ}
    (hmem : ∀ x ∈ xs, 0 ≤ x) (h : rollMean14 xs i = some m) : 0 ≤ m := by
  simp only [rollMean14] at h
  split_ifs at h
  injection h with h'
  subst h'
  apply div_nonneg _ (by norm_num)
  apply List.sum_nonneg
  intro x hx
  exact hmem x (List.mem_of_mem_take (List.mem_of_mem_drop hx))

/-- Claim C9 — RSI bounds: wherever the 14-bar average loss is strictly
positive, the RSI value `100 − 100/(1 + avg_gain/avg_loss)` is defined
and lies in [0, 100]; and when the average loss is 0 with strictly
positive average gain, the division saturates and RSI is exactly 100. -/
theorem rsiAt_bounded (closes : List ℚ) (i : ℕ) (g l : ℚ)
    (hg : rollMean14 (gains closes) i = some g)
    (hl : rollMean14 (losses closes) i = some l) :
    (0 < l →
      rsiAt closes i = some (100 - 100 / (1 + g / l)) ∧
      0 ≤ 100 - 100 / (1 + g / l) ∧ 100 - 100 / (1 + g / l) ≤ 100) ∧
    (l = 0 → 0 < g → rsiAt closes i = some 100) := by
  have hg0 : 0 ≤ g := rollMean14_nonneg (gains_nonneg closes) hg
  constructor
  · intro hlpos
    have h1 : (0 : ℚ) ≤ g / l := div_nonneg hg0 hlpos.le
    have h2 : (0 : ℚ) < 100 / (1 + g / l) :=
      div_pos (by norm_num) (by linarith)
    have h3 : 100 / (1 + g / l) ≤ 100 :=
      div_le_self (by norm_num) (by linarith)
    refine ⟨?_, by linarith, by linarith⟩
    simp only [rsiAt, hg, hl, if_pos hlpos]
  · intro hl0 hgpos
    subst hl0
    simp only [rsiAt, hg, hl, lt_self_iff_false, if_false, if_pos hgpos]

/-- Witness for C9: fifteen closes alternating 1, 2 give average gain and
loss 1/2 at index 13, so RSI is defined there, equals
100 − 100/(1 + 1) = 50, and lies in [0, 100]. -/
theorem rsiAt_bounded_witness :
    rsiAt rsiSampleCloses 13 =
      some (100 - 100 / (1 + (1 / 2 : ℚ) / (1 / 2))) ∧
    0 ≤ 100 - 100 / (1 + (1 / 2 : ℚ) / (1 / 2)) ∧
    100 - 100 / (1 + (1 / 2 : ℚ) / (1 / 2)) ≤ 100 :=
  (rsiAt_bounded rsiSampleCloses 13 (1 / 2) (1 / 2)
    (by norm_num [rollMean14, gains, deltas, rsiSampleCloses])
    (by norm_num [rollMean14, losses, deltas, rsiSampleCloses])).1
    (by norm_num)

/-- Claim C10 — `modify_sl_tp` reads the attribute `symbol` on the bot
object; `TradingBot.__init__` only ever defines `symbols` (plural),
`risk_percentage`, `max_positions` and `timeframes`, so the lookup raises
`AttributeError` for every constructor argument and every call, and no
stop-loss modification request is ever built (hence never sent). -/
theorem modify_sl_tp_attribute_error (symbols : List String)
    (risk_percentage : ℚ) (max_positions ticket : ℕ) (sl tp : ℚ) :
    modify_sl_tp (TradingBot.initAttrs symbols risk_percentage
      max_positions) ticket sl tp = Except.error () := rfl

end Bot
